import Mathlib

/-!
Verification development for the regulatory multi-agent orchestration system.

Shallow embedding of the orchestration graph (`src/graph.py`), the memory
subsystem (`src/memory/base.py`, `src/memory/sqlite_store.py`,
`src/memory/redis_store.py`), the Perplexity confidence computation
(`src/tools/perplexity_tool.py`), the risk scoring functions
(`src/tools/risk_tools.py`) and the contract-analysis tool
(`src/tools/legal_tools.py`).  Python timestamps are modelled as `Int`
(seconds / days), float scores as `ℚ`, strings as `String` or `List Char`.
-/

namespace StrUtil

/-- ASCII lowering of a string (`str.lower` on the ASCII texts at issue). -/
def lowerStr (s : String) : List Char := s.toList.map Char.toLower

/-- `small` is a prefix of the second list. -/
def matchesPre : List Char → List Char → Bool
  | [], _ => true
  | _ :: _, [] => false
  | c :: cs, d :: ds => c = d && matchesPre cs ds

/-- Substring containment (`small in big`). -/
def containsSub (small : List Char) : List Char → Bool
  | [] => small.isEmpty
  | d :: ds => matchesPre small (d :: ds) || containsSub small ds

end StrUtil

namespace RegGraph

/-- The six specialized agents of the production orchestration graph
(`RegulatoryMultiAgentSystem._initialize_agents`). -/
inductive AgentName
  | compliance
  | legal
  | risk
  | research
  | perplexity
  | docReview
deriving DecidableEq, Repr

/-- `agent.config.name` for each agent (`src/agents/regulatory.py`,
`src/agents/perplexity_agent.py`), as used by the graph wrapper for
confidence branching and failure messages. -/
def configName : AgentName → String
  | .compliance => "compliance_agent"
  | .legal => "legal_analysis_agent"
  | .risk => "risk_assessment_agent"
  | .research => "research_agent"
  | .perplexity => "perplexity_research_agent"
  | .docReview => "document_review_agent"

/-- The shared workflow context (`state["context"]`), restricted to the keys
that `graph.py` reads.  A key that is absent or holds a falsy value is
modelled by `none` / `""` / `0` / `false`: the code only ever tests these
keys through Python truthiness (`analysis not in context or not
context[analysis]`, `bool(context.get(...))`). -/
structure Ctx where
  /-- `context["perplexity_research"]`: `none` = absent/falsy, `some q` =
  truthy payload whose `confidence_score` is `q` (0 when the key is absent
  in the payload). -/
  perplexityResearch : Option ℚ := none
  complianceAnalysis : String := ""
  legalAnalysis : String := ""
  riskAssessment : String := ""
  researchFindings : String := ""
  /-- `context["final_report"]`, read by the document-review special case. -/
  finalReport : Option String := none
  qualityChecked : Bool := false
  /-- `len(context["perplexity_citations"])` (0 when absent). -/
  perplexityCitations : Nat := 0
  /-- `context["consultas_anvisa"]` (0 when absent). -/
  consultasAnvisa : Nat := 0
  /-- truthiness of `context["legal_tools_used"]`. -/
  legalToolsUsed : Bool := false
  /-- truthiness of `context["regulatory_risk_assessment"]`. -/
  regulatoryRiskAssessment : Bool := false
  /-- `context["research_data"]["research_results_count"]` (0 when absent). -/
  researchResultsCount : Nat := 0
deriving DecidableEq, Repr

/-- The five required analysis keys of `_analyze_orchestrator_state`. -/
inductive AKey
  | perplexityResearch
  | complianceAnalysis
  | legalAnalysis
  | riskAssessment
  | researchFindings
deriving DecidableEq, Repr

/-- Truthiness test `analysis in context and context[analysis]` for each
required analysis key. -/
def Ctx.present (c : Ctx) : AKey → Bool
  | .perplexityResearch => c.perplexityResearch.isSome
  | .complianceAnalysis => c.complianceAnalysis != ""
  | .legalAnalysis => c.legalAnalysis != ""
  | .riskAssessment => c.riskAssessment != ""
  | .researchFindings => c.researchFindings != ""

/-- Insertion order of the `required_analyses` dict in
`_analyze_orchestrator_state`. -/
def requiredAnalyses : List AKey :=
  [.perplexityResearch, .complianceAnalysis, .legalAnalysis,
   .riskAssessment, .researchFindings]

/-- The agent responsible for each required analysis key (values of the
`required_analyses` dict). -/
def agentFor : AKey → AgentName
  | .perplexityResearch => .perplexity
  | .complianceAnalysis => .compliance
  | .legalAnalysis => .legal
  | .riskAssessment => .risk
  | .researchFindings => .research

/-- The `analysis_priorities` dict of `_analyze_orchestrator_state`. -/
def priorityOf : AKey → Nat
  | .perplexityResearch => 1
  | .researchFindings => 2
  | .complianceAnalysis => 3
  | .legalAnalysis => 4
  | .riskAssessment => 5

/-- Python `min(xs, key=f)`: first element with strictly minimal key. -/
def pyMinBy (f : AKey → Nat) : AKey → List AKey → AKey
  | best, [] => best
  | best, x :: xs => pyMinBy f (if f x < f best then x else best) xs

/-- Nodes of the state machine built by `_build_enhanced_graph`. -/
inductive GNode
  | orchestrator
  | agent (a : AgentName)
  | quality
  | finalize
  | stop
deriving DecidableEq, Repr

/-- `_analyze_orchestrator_state`: find the missing required analyses, and
either route to quality control / document review (all present) or to the
agent of the highest-priority missing analysis. -/
def analyzeOrchestratorState (c : Ctx) : GNode :=
  match requiredAnalyses.filter (fun k => !(c.present k)) with
  | [] => if c.qualityChecked then .agent .docReview else .quality
  | m :: ms => .agent (agentFor (pyMinBy priorityOf m ms))

/-- The workflow state (`EnhancedAgentState`), restricted to the fields the
graph logic reads or writes. -/
structure GState where
  task : String
  iteration : Nat
  maxIterations : Nat
  ctx : Ctx
  finalOutput : Option String := none
  error : Option String := none
  confidence : ℚ := 0
deriving DecidableEq, Repr

/-- `_calculate_agent_confidence`: base 0.5 plus agent-specific boosts,
capped at 1.0. -/
def calcAgentConfidence (a : AgentName) (c : Ctx) : ℚ :=
  let confidence : ℚ :=
    match a with
    | .compliance =>
        1/2 + (if c.complianceAnalysis != "" && 100 < c.complianceAnalysis.length
               then 3/10 else 0)
            + (if 0 < c.consultasAnvisa then 1/5 else 0)
    | .legal =>
        1/2 + (if c.legalAnalysis != "" && 100 < c.legalAnalysis.length
               then 3/10 else 0)
            + (if c.legalToolsUsed then 1/5 else 0)
    | .risk =>
        1/2 + (if c.riskAssessment != "" && 100 < c.riskAssessment.length
               then 3/10 else 0)
            + (if c.regulatoryRiskAssessment then 1/5 else 0)
    | .research =>
        1/2 + (if c.researchFindings != "" && 100 < c.researchFindings.length
               then 3/10 else 0)
            + (if 0 < c.researchResultsCount then 1/5 else 0)
    | .perplexity =>
        1/2 + (match c.perplexityResearch with
               | some q => if 7/10 < q then 2/5 else 0
               | none => 0)
            + (if 10 < c.perplexityCitations then 1/10 else 0)
    | .docReview => 1/2
  min confidence 1

/-- `_orchestrator_node`: increment the iteration counter, terminate with
"Maximum iterations reached" when it now exceeds the ceiling, otherwise
route per `_analyze_orchestrator_state`. -/
def stepOrch (s : GState) : GNode × GState :=
  let s1 := { s with iteration := s.iteration + 1 }
  if s1.maxIterations < s1.iteration then
    (.stop, { s1 with error := some "Maximum iterations reached" })
  else
    (analyzeOrchestratorState s1.ctx, s1)

/-- An agent's `process` either returns an updated context (the repository's
agents mutate only `context`, messages and memory bookkeeping) or raises. -/
abbrev AgentBehavior := AgentName → GState → Except String Ctx

/-- The `agent_wrapper` closure of `_create_agent_wrapper`: run `process`,
recompute the confidence score, special-case `document_review_agent` to end
the run with `final_output = context.get("final_report")`, route every other
agent back to the orchestrator; any exception ends the run with a formatted
error and leaves the rest of the state (in particular the context) as it
was. -/
def stepAgent (beh : AgentBehavior) (a : AgentName) (s : GState) : GNode × GState :=
  match beh a s with
  | .error msg =>
      (.stop, { s with error := some ("Agent " ++ configName a ++ " failed: " ++ msg) })
  | .ok c =>
      let s' := { s with ctx := c, confidence := calcAgentConfidence a c }
      if a = .docReview then
        (.stop, { s' with finalOutput := c.finalReport })
      else
        (.orchestrator, s')

/-- The seven named booleans computed by `_quality_control_node`. -/
structure QChecks where
  hasPerplexityResearch : Bool
  hasComplianceAnalysis : Bool
  hasLegalAnalysis : Bool
  hasRiskAssessment : Bool
  hasResearchFindings : Bool
  sufficientConfidence : Bool
  hasCitations : Bool
deriving DecidableEq, Repr

def qualityChecksOf (s : GState) : QChecks where
  hasPerplexityResearch := s.ctx.perplexityResearch.isSome
  hasComplianceAnalysis := s.ctx.complianceAnalysis != ""
  hasLegalAnalysis := s.ctx.legalAnalysis != ""
  hasRiskAssessment := s.ctx.riskAssessment != ""
  hasResearchFindings := s.ctx.researchFindings != ""
  sufficientConfidence := 3/5 < s.confidence
  hasCitations := 5 < s.ctx.perplexityCitations

def QChecks.allPassed (q : QChecks) : Bool :=
  q.hasPerplexityResearch && q.hasComplianceAnalysis && q.hasLegalAnalysis &&
  q.hasRiskAssessment && q.hasResearchFindings && q.sufficientConfidence &&
  q.hasCitations

/-- Result of the quality-control node: where it routes and how it updates
the state (`quality_checks` always recorded; `quality_checked` set in the
context on success, the failing checks recorded as `quality_issues` on
failure). -/
structure QCOutcome where
  target : GNode
  qualityChecks : QChecks
  ctxQualityChecked : Bool
  qualityIssues : Option QChecks
deriving DecidableEq, Repr

/-- `_quality_control_node`. -/
def stepQuality (s : GState) : QCOutcome :=
  let q := qualityChecksOf s
  if q.allPassed then
    { target := .finalize, qualityChecks := q,
      ctxQualityChecked := true, qualityIssues := none }
  else
    { target := .orchestrator, qualityChecks := q,
      ctxQualityChecked := s.ctx.qualityChecked, qualityIssues := some q }

/-- One transition of the compiled graph.  `finalize_output` is a
pass-through node wired by a static edge to `END`
(`workflow.add_edge("finalize_output", END)`). -/
def step (beh : AgentBehavior) : GNode → GState → GNode × GState
  | .orchestrator, s => stepOrch s
  | .agent a, s => stepAgent beh a s
  | .quality, s =>
      let o := stepQuality s
      (o.target, { s with ctx := { s.ctx with qualityChecked := o.ctxQualityChecked } })
  | .finalize, s => (.stop, s)
  | .stop, s => (.stop, s)

/-- Drive the graph for at most `fuel` node transitions. -/
def exec (beh : AgentBehavior) : Nat → GNode → GState → GState
  | 0, _, s => s
  | _ + 1, .stop, s => s
  | n + 1, node, s =>
      let p := step beh node s
      exec beh n p.1 p.2

/-- The initial state built by `run` (iteration 0, empty or caller-supplied
context, entry node `orchestrator`). -/
def initState (task : String) (maxIterations : Nat) (ctx0 : Ctx) : GState :=
  { task, iteration := 0, maxIterations, ctx := ctx0 }

/-- The final graph state of `run(task, max_iterations, context)`.  Each
orchestrator visit strictly increases `iteration` and at most two other
nodes run between consecutive orchestrator visits, so `3 * maxIterations +
6` transitions always suffice to reach `stop`. -/
def runState (beh : AgentBehavior) (task : String) (maxIterations : Nat)
    (ctx0 : Ctx) : GState :=
  exec beh (3 * maxIterations + 6) .orchestrator (initState task maxIterations ctx0)

/-- The normalized result bag returned by `run` on its non-exceptional path.
Note the bag has no `error` key: `success`, output, context, iteration count
and confidence are the fields a caller can read. -/
structure RunResult where
  success : Bool
  output : Option String
  context : Ctx
  iterations : Nat
  confidence : ℚ
deriving DecidableEq, Repr

/-- `bool(final_state.get("final_output"))`. -/
def truthyOutput : Option String → Bool
  | none => false
  | some t => t != ""

/-- `success = bool(final_output) and not error`, plus the other fields of
the result dict built by `run`. -/
def mkRunResult (s : GState) : RunResult where
  success := truthyOutput s.finalOutput && s.error.isNone
  output := s.finalOutput
  context := s.ctx
  iterations := s.iteration
  confidence := s.confidence

def run (beh : AgentBehavior) (task : String) (maxIterations : Nat)
    (ctx0 : Ctx) : RunResult :=
  mkRunResult (runState beh task maxIterations ctx0)

end RegGraph

namespace RegMemory

/-- `Memory.remember`'s effective TTL: the Python line `ttl = ttl or
self.default_ttl` replaces both `None` and `0` by the default (0 is falsy). -/
def rememberTtl (ttlArg : Option Int) (defaultTtl : Int) : Int :=
  match ttlArg with
  | none => defaultTtl
  | some t => if t = 0 then defaultTtl else t

/-- The `expires_at` field of the entry built by `Memory.remember`:
`datetime.utcnow() + timedelta(seconds=ttl) if ttl > 0 else None`, after the
falsy-default substitution above.  `now` is the creation time in seconds. -/
def rememberExpiresAt (now : Int) (ttlArg : Option Int)
    (defaultTtl : Int := 3600) : Option Int :=
  let t := rememberTtl ttlArg defaultTtl
  if 0 < t then some (now + t) else none

/-- `MemoryType` (`src/memory/types.py`). -/
inductive MemoryType
  | shortTerm
  | longTerm
  | episodic
  | semantic
  | procedural
deriving DecidableEq, Repr

/-- `MemoryEntry`, restricted to the fields the two stores' search, update
and delete operations consult.  Timestamps are seconds as `Int`, the
relevance score a `ℚ`. -/
structure MEntry where
  id : String
  mtype : MemoryType
  content : String
  agentId : String
  threadId : Option String := none
  timestamp : Int
  relevanceScore : ℚ := 1
  tags : List String := []
deriving DecidableEq, Repr

/-- `MemorySearchQuery` (`src/memory/types.py`). -/
structure MQuery where
  query : String
  memoryTypes : Option (List MemoryType) := none
  agentIds : Option (List String) := none
  threadId : Option String := none
  tags : Option (List String) := none
  startDate : Option Int := none
  endDate : Option Int := none
  limit : Nat := 10
  minRelevance : ℚ := 0
deriving Repr

/-- Case-insensitive substring test: `content LIKE '%query%'` on the SQLite
side, `query.lower() in content.lower()` on the Redis side (ASCII case
folding). -/
def containsCI (query content : String) : Bool :=
  StrUtil.containsSub (StrUtil.lowerStr query) (StrUtil.lowerStr content)

/-- The `WHERE` clause built by `SQLiteMemoryStore.search`: each filter is
added only when the query field is truthy (`if query.agent_ids:` skips both
`None` and an empty list, `if query.thread_id:` skips `None` and `""`, `if
query.query:` skips `""`).  The SQLite store applies no tag filter and no
minimum-relevance filter. -/
def sqliteRowMatch (q : MQuery) (e : MEntry) : Bool :=
  (match q.agentIds with
   | some (a :: as) => decide (e.agentId ∈ a :: as)
   | _ => true) &&
  (match q.memoryTypes with
   | some (t :: ts) => decide (e.mtype ∈ t :: ts)
   | _ => true) &&
  (match q.threadId with
   | some t => if t = "" then true else e.threadId == some t
   | none => true) &&
  (if q.query = "" then true else containsCI q.query e.content) &&
  (match q.startDate with
   | some d => decide (d ≤ e.timestamp)
   | none => true) &&
  (match q.endDate with
   | some d => decide (e.timestamp ≤ d)
   | none => true)

/-- `RedisMemoryStore._get_candidate_ids`: when any index filter is active,
the candidate set is the set INTERSECTION of every listed index set, so an
entry qualifies only if it matches every agent id, every memory type, the
thread id and every tag; with no active filter every stored entry is a
candidate (full key scan). -/
def redisCandidate (q : MQuery) (e : MEntry) : Bool :=
  let agentActive := match q.agentIds with | some (_ :: _) => true | _ => false
  let typeActive := match q.memoryTypes with | some (_ :: _) => true | _ => false
  let threadActive := match q.threadId with | some t => t ≠ "" | none => false
  let tagActive := match q.tags with | some (_ :: _) => true | _ => false
  if agentActive || typeActive || threadActive || tagActive then
    (match q.agentIds with
     | some l => l.all (fun a => e.agentId = a)
     | none => true) &&
    (match q.memoryTypes with
     | some l => l.all (fun t => e.mtype = t)
     | none => true) &&
    (match q.threadId with
     | some t => if t = "" then true else e.threadId == some t
     | none => true) &&
    (match q.tags with
     | some l => l.all (fun g => decide (g ∈ e.tags))
     | none => true)
  else
    true

/-- `RedisMemoryStore._matches_query`: free-text substring (guarded by `if
query.query and ...`), date range, and minimum relevance. -/
def redisMatchesQuery (q : MQuery) (e : MEntry) : Bool :=
  (if q.query = "" then true else containsCI q.query e.content) &&
  (match q.startDate with
   | some d => decide (d ≤ e.timestamp)
   | none => true) &&
  (match q.endDate with
   | some d => decide (e.timestamp ≤ d)
   | none => true) &&
  decide (q.minRelevance ≤ e.relevanceScore)

/-- An entry that `RedisMemoryStore.search` returns: index-set candidate and
`_matches_query` survivor. -/
def redisRowMatch (q : MQuery) (e : MEntry) : Bool :=
  redisCandidate q e && redisMatchesQuery q e

/-- The store state: the rows of the `memories` table / the `memory:{id}`
keys with their index sets (derivable from the entries). -/
abbrev StoreState := List MEntry

/-- `INSERT OR REPLACE` / Redis `SET`: replace any entry with the same id. -/
def storeOp (e : MEntry) (db : StoreState) : StoreState :=
  db.filter (fun x => x.id ≠ e.id) ++ [e]

/-- `SELECT * FROM memories WHERE id = ?` — lookup by id. -/
def sqliteRetrieve (db : StoreState) (memoryId : String) : Option MEntry :=
  db.find? (fun x => x.id = memoryId)

/-- `GET memory:{id}` — lookup by id. -/
def redisRetrieve (db : StoreState) (memoryId : String) : Option MEntry :=
  db.find? (fun x => x.id = memoryId)

/-- `SQLiteMemoryStore.update`: delegates to `store` (`INSERT OR REPLACE`)
and unconditionally returns `True`.  Modelled at the call sites of
`Memory`, where `memory_id == entry.id`. -/
def sqliteUpdate (db : StoreState) (e : MEntry) : StoreState × Bool :=
  (storeOp e db, true)

/-- `RedisMemoryStore.update`: returns `False` without writing when the key
does not exist, otherwise re-stores the entry and returns `True`. -/
def redisUpdate (db : StoreState) (e : MEntry) : StoreState × Bool :=
  if db.any (fun x => x.id = e.id) then (storeOp e db, true) else (db, false)

/-- The set of rows admitted by `SQLiteMemoryStore.search` (before the
relevance/recency `ORDER BY` and `LIMIT`). -/
def sqliteSearchSet (q : MQuery) (db : StoreState) : StoreState :=
  db.filter (sqliteRowMatch q)

/-- The set of entries admitted by `RedisMemoryStore.search` (before the
relevance/recency sort and limit truncation). -/
def redisSearchSet (q : MQuery) (db : StoreState) : StoreState :=
  db.filter (redisRowMatch q)

end RegMemory

namespace PerplexityTool

/-- A processed citation, restricted to the fields
`PerplexityResearchTool._calculate_confidence` consults.  `sourceType` is
the `_classify_source` label; `regulatoryBody` is `some` exactly when
`_extract_regulatory_body` found an agency (truthy value);
`publishedDaysAgo` is the parsed age of `published_date` in days (`none`
when the date is absent or unparseable, in which case `_is_recent` returns
`False`). -/
structure Citation where
  sourceType : String
  regulatoryBody : Option String := none
  publishedDaysAgo : Option Int := none
deriving DecidableEq, Repr

/-- `_is_recent(published_date)` with the default window of 365 days. -/
def isRecent (publishedDaysAgo : Option Int) : Bool :=
  match publishedDaysAgo with
  | none => false
  | some d => d ≤ 365

/-- `_calculate_confidence`: returns 0.0 for an empty citation list,
otherwise base 0.5 plus capped boosts for official sources, regulatory-body
sources and recent sources, clamped to [0, 1]. -/
def calcConfidence (citations : List Citation) : ℚ :=
  if citations.isEmpty then 0
  else
    let officialCount : ℚ :=
      (citations.filter (fun c => c.sourceType = "official")).length
    let regulatoryCount : ℚ :=
      (citations.filter (fun c => c.regulatoryBody.isSome)).length
    let recentCount : ℚ :=
      (citations.filter (fun c => isRecent c.publishedDaysAgo)).length
    let confidence : ℚ :=
      1/2 + min (3/10) (officialCount * (1/20))
          + min (3/20) (regulatoryCount * (3/100))
          + min (1/20) (recentCount * (1/100))
    min 1 (max 0 confidence)

/-- The spec's formula for the confidence score, written from §4.5 / §8.8 of
the specification: base 0.5, +0.05 per official citation up to +0.3, +0.03
per regulatory-body citation up to +0.15, +0.01 per recent citation up to
+0.05, clamped to [0, 1]. -/
def specConfidence (officialCount regulatoryCount recentCount : ℕ) : ℚ :=
  min 1 (max 0 (1/2 + min (3/10) ((officialCount : ℚ) * (1/20))
          + min (3/20) ((regulatoryCount : ℚ) * (3/100))
          + min (1/20) ((recentCount : ℚ) * (1/100))))

end PerplexityTool

namespace RiskTools

/-- `RiskLevel` (`src/tools/risk_tools.py`). -/
inductive RiskLevel
  | veryLow
  | low
  | medium
  | high
  | critical
deriving DecidableEq, Repr

/-- `RegulatoryRiskAssessmentTool._calculate_risk_score`: clamp both inputs
to [0, 1], then apply the framework formula (multiplicative for
`iso_31000` and any unrecognized framework, weighted 0.4/0.6 for
`coso_erm`, multiplicative with a 1.2 factor for `anvisa_gestao_risco`). -/
def calcRiskScore (probability impact : ℚ) (framework : String) : ℚ :=
  if framework = "iso_31000" then
    max 0 (min 1 probability) * max 0 (min 1 impact)
  else if framework = "coso_erm" then
    max 0 (min 1 probability) * (2/5) + max 0 (min 1 impact) * (3/5)
  else if framework = "anvisa_gestao_risco" then
    max 0 (min 1 probability) * max 0 (min 1 impact) * (6/5)
  else
    max 0 (min 1 probability) * max 0 (min 1 impact)

/-- `_classify_risk_level`. -/
def classifyRiskLevel (riskScore : ℚ) : RiskLevel :=
  if 4/5 ≤ riskScore then .critical
  else if 3/5 ≤ riskScore then .high
  else if 2/5 ≤ riskScore then .medium
  else if 1/5 ≤ riskScore then .low
  else .veryLow

end RiskTools

namespace LegalTools

/-!
`ContractAnalysisTool` (`src/tools/legal_tools.py`).  The tool's risk
patterns and clause keywords are regular expressions over the lowercased
contract text, built from literal characters, `.` (any character but a
newline), `.*` (a greedy run of non-newline characters) and one negated
character class `[^brasil]`.  The atoms below embed exactly that fragment;
the pattern strings are copied character for character from the source file
(whose accented characters appear in mojibake form). -/

/-- One regular-expression atom of the fragment used by the tool. -/
inductive Atom
  | lit (c : Char)
  | dot
  | star
  | ncls (cs : List Char)
deriving DecidableEq, Repr

/-- A literal string as a sequence of atoms. -/
def lits (s : String) : List Atom := s.toList.map Atom.lit

/-- Greedy match of `.*` followed by the continuation `f`: consume the
longest run of non-newline characters after which `f` succeeds, returning
the total consumed length. -/
def starGo (f : List Char → Option Nat) : List Char → Option Nat
  | [] => f []
  | d :: ds =>
      if d = '\n' then f (d :: ds)
      else
        match starGo f ds with
        | some n => some (n + 1)
        | none => f (d :: ds)

/-- Match a pattern against a prefix of the text, returning the length of
the (greedy, leftmost-longest) match. -/
def mtch : List Atom → List Char → Option Nat
  | [], _ => some 0
  | .lit c :: ps, ds =>
      match ds with
      | [] => none
      | d :: ds' => if c = d then (mtch ps ds').map (· + 1) else none
  | .dot :: ps, ds =>
      match ds with
      | [] => none
      | d :: ds' => if d = '\n' then none else (mtch ps ds').map (· + 1)
  | .ncls cs :: ps, ds =>
      match ds with
      | [] => none
      | d :: ds' => if d ∈ cs then none else (mtch ps ds').map (· + 1)
  | .star :: ps, ds => starGo (mtch ps) ds

/-- `re.search`: does the pattern match at some position of the text? -/
def rsearch (p : List Atom) : List Char → Bool
  | [] => (mtch p []).isSome
  | d :: ds => (mtch p (d :: ds)).isSome || rsearch p ds

/-- Fuel-indexed scan for `countMatches`; the fuel bounds the number of
scan positions, so `fuel = text.length` always suffices (the text shrinks
by at least one character per step). -/
def countMatchesAux (p : List Atom) : Nat → List Char → Nat
  | _, [] => if (mtch p []).isSome then 1 else 0
  | 0, _ :: _ => 0
  | f + 1, d :: ds =>
      match mtch p (d :: ds) with
      | some 0 => 1 + countMatchesAux p f ds
      | some (n + 1) => 1 + countMatchesAux p f (ds.drop n)
      | none => countMatchesAux p f ds

/-- `len(re.findall(pattern, text))`: non-overlapping leftmost matches,
advancing one character past a zero-width match. -/
def countMatches (p : List Atom) (text : List Char) : Nat :=
  countMatchesAux p text.length text

/-- The `_load_risk_patterns` catalog paired with the `risk_weight` of its
category (`high_risk` 1.0, `medium_risk` 0.6, `compliance_risk` 0.8,
`regulatory_risk` 0.7), in iteration order. -/
def riskPatternList : List (ℚ × List Atom) :=
  [ (1, lits "sem limite de responsabilidade"),
    (1, lits "responsabilidade ilimitada"),
    (1, lits "ren√∫ncia" ++ [Atom.star] ++ lits "direitos"),
    (1, lits "irrevog√°vel" ++ [Atom.star] ++ lits "irretrat√°vel"),
    (1, lits "multa" ++ [Atom.star] ++ lits "superior" ++ [Atom.star] ++ lits "30%"),
    (1, lits "cl√°usula" ++ [Atom.star] ++ lits "leonina"),
    (1, lits "foro" ++ [Atom.star] ++ lits "exclusivo" ++ [Atom.star]
       ++ [Atom.ncls ("brasil".toList)]),
    (3/5, lits "rescis√£o" ++ [Atom.star] ++ lits "imotivada"),
    (3/5, lits "multa" ++ [Atom.star] ++ lits "rescis√≥ria"),
    (3/5, lits "prazo" ++ [Atom.star] ++ lits "prorroga√ß√£o"
       ++ [Atom.star] ++ lits "autom√°tica"),
    (3/5, lits "altera√ß√£o" ++ [Atom.star] ++ lits "unilateral"),
    (3/5, lits "confidencialidade" ++ [Atom.star] ++ lits "per√≠odo"
       ++ [Atom.star] ++ lits "superior" ++ [Atom.star] ++ lits "5"
       ++ [Atom.star] ++ lits "anos"),
    (4/5, lits "sem" ++ [Atom.star] ++ lits "adequa√ß√£o"
       ++ [Atom.star] ++ lits "lgpd"),
    (4/5, lits "transfer√™ncia" ++ [Atom.star] ++ lits "dados"
       ++ [Atom.star] ++ lits "exterior"),
    (4/5, lits "aus√™ncia" ++ [Atom.star] ++ lits "cl√°usula"
       ++ [Atom.star] ++ lits "anticorrup√ß√£o"),
    (4/5, lits "n√£o" ++ [Atom.star] ++ lits "menciona"
       ++ [Atom.star] ++ lits "compliance"),
    (4/5, lits "sem" ++ [Atom.star] ++ lits "auditoria" ++ [Atom.star] ++ lits "terceiros"),
    (7/10, lits "n√£o" ++ [Atom.star] ++ lits "atende" ++ [Atom.star] ++ lits "anvisa"),
    (7/10, lits "sem" ++ [Atom.star] ++ lits "certifica√ß√£o"
       ++ [Atom.star] ++ lits "anatel"),
    (7/10, lits "aus√™ncia" ++ [Atom.star] ++ lits "licen√ßas"
       ++ [Atom.star] ++ lits "ambientais"),
    (7/10, lits "n√£o" ++ [Atom.star] ++ lits "contempla" ++ [Atom.star]
       ++ lits "normas" ++ [Atom.star] ++ lits "t√©cnicas"),
    (7/10, lits "sem" ++ [Atom.star] ++ lits "valida√ß√£o"
       ++ [Atom.star] ++ lits "inmetro") ]

/-- The accumulated and capped risk score of `_analyze_contract_text`:
`risk_score += weight * len(matches)` per pattern, then
`min(risk_score, 10.0)`. -/
def contractRiskScore (contractLower : List Char) : ℚ :=
  min ((riskPatternList.map
    (fun wp => wp.1 * (countMatches wp.2 contractLower : ℚ))).sum) 10

/-- The data-protection keyword group of the `essential_clauses` dict. -/
def lgpdKeywords : List (List Atom) :=
  [lits "lgpd",
   lits "prote√ß√£o" ++ [Atom.star] ++ lits "dados",
   lits "privacidade",
   lits "dados" ++ [Atom.star] ++ lits "pessoais"]

/-- The `essential_clauses` dict, in insertion order. -/
def essentialClauses : List (String × List (List Atom)) :=
  [ ("lgpd", lgpdKeywords),
    ("anticorrupcao",
     [lits "anticorrup√ß√£o",
      lits "compliance",
      lits "integridade",
      lits "lei" ++ [Atom.star] ++ lits "12" ++ [Atom.dot] ++ lits "846"]),
    ("responsabilidade",
     [lits "responsabilidade",
      lits "limita√ß√£o" ++ [Atom.star] ++ lits "danos",
      lits "indeniza√ß√£o"]),
    ("resolucao_disputas",
     [lits "foro",
      lits "arbitragem",
      lits "media√ß√£o",
      lits "jurisdi√ß√£o"]) ]

/-- A clause type is reported missing when none of its keywords
`re.search`-matches the lowercased contract. -/
def missingClausesOf (contractLower : List Char) : List String :=
  (essentialClauses.filter
    (fun cl => !(cl.2.any (fun kw => rsearch kw contractLower)))).map Prod.fst

def gapLgpd : String :=
  "Aus√™ncia de cl√°usulas de prote√ß√£o de dados conforme LGPD"

def gapAnticorrupcao : String :=
  "Aus√™ncia de cl√°usulas anticorrup√ß√£o conforme Lei 12.846/2013"

/-- The compliance-gap list derived from the missing clauses. -/
def complianceGapsOf (missing : List String) : List String :=
  (if "lgpd" ∈ missing then [gapLgpd] else []) ++
  (if "anticorrupcao" ∈ missing then [gapAnticorrupcao] else [])

structure ContractAnalysis where
  riskScore : ℚ
  missingClauses : List String
  complianceGaps : List String
deriving DecidableEq, Repr

/-- `_analyze_contract_text`, restricted to the scoring, missing-clause and
compliance-gap outputs (the prose recommendation list is derived text). -/
def analyzeContractText (contractText : List Char) : ContractAnalysis :=
  let contractLower := contractText.map Char.toLower
  let missing := missingClausesOf contractLower
  { riskScore := contractRiskScore contractLower
    missingClauses := missing
    complianceGaps := complianceGapsOf missing }

def tooShortMsg : String :=
  "Texto do contrato muito curto para an√°lise efetiva. Forne√ßa o texto completo."

/-- `ContractAnalysisTool._execute`'s gate: texts under 100 characters are
rejected with the fixed message before any scoring; otherwise the analysis
runs. -/
def contractAnalysisExecute (contractText : List Char) :
    Except String ContractAnalysis :=
  if contractText.length < 100 then .error tooShortMsg
  else .ok (analyzeContractText contractText)

/-- A literal pattern matches wherever its string is a prefix. -/
theorem mtch_lits_of_matchesPre (p : List Char) :
    ∀ t : List Char, StrUtil.matchesPre p t = true →
      mtch (p.map Atom.lit) t = some p.length := by
  induction p with
  | nil => intro t _; rfl
  | cons c cs ih =>
    intro t h
    cases t with
    | nil => simp [StrUtil.matchesPre] at h
    | cons d ds =>
      simp [StrUtil.matchesPre] at h
      obtain ⟨rfl, h2⟩ := h
      simp [mtch, ih ds h2]

/-- Fuel-generalized: a contained non-empty literal phrase is counted at
least once. -/
theorem countMatchesAux_pos (ph : List Char) (hne : ph ≠ []) :
    ∀ (t : List Char) (f : Nat), t.length ≤ f →
      StrUtil.containsSub ph t = true →
      1 ≤ countMatchesAux (ph.map Atom.lit) f t := by
  intro t
  induction t with
  | nil =>
    intro f _ hcon
    cases ph with
    | nil => exact absurd rfl hne
    | cons c cs => simp [StrUtil.containsSub] at hcon
  | cons d ds ih =>
    intro f hf hcon
    cases f with
    | zero => simp at hf
    | succ f' =>
      rcases hm : mtch (ph.map Atom.lit) (d :: ds) with _ | n
      · have hpre : StrUtil.matchesPre ph (d :: ds) = false := by
          cases hq : StrUtil.matchesPre ph (d :: ds)
          · rfl
          · exact absurd (mtch_lits_of_matchesPre ph _ hq) (by simp [hm])
        have hcon' : StrUtil.containsSub ph ds = true := by
          simpa [StrUtil.containsSub, hpre] using hcon
        have hlen : ds.length ≤ f' := by simp at hf; omega
        simpa [countMatchesAux, hm] using ih f' hlen hcon'
      · cases n <;> simp [countMatchesAux, hm]

/-- A contained non-empty literal phrase is `findall`-counted at least
once. -/
theorem countMatches_pos (ph t : List Char) (hne : ph ≠ [])
    (hcon : StrUtil.containsSub ph t = true) :
    1 ≤ countMatches (ph.map Atom.lit) t :=
  countMatchesAux_pos ph hne t t.length (le_refl _) hcon

/-- A contained literal phrase is found by `re.search`. -/
theorem rsearch_lits_of_containsSub (ph : List Char) :
    ∀ t : List Char, StrUtil.containsSub ph t = true →
      rsearch (ph.map Atom.lit) t = true := by
  intro t
  induction t with
  | nil =>
    intro hcon
    have hph : ph = [] := by
      cases ph with
      | nil => rfl
      | cons c cs => simp [StrUtil.containsSub] at hcon
    subst hph
    rfl
  | cons d ds ih =>
    intro hcon
    rcases hq : StrUtil.matchesPre ph (d :: ds) with _ | _
    · have htail : StrUtil.containsSub ph ds = true := by
        simpa [StrUtil.containsSub, hq] using hcon
      simp [rsearch, ih htail]
    · simp [rsearch, mtch_lits_of_matchesPre ph _ hq]

/-- Every risk-pattern weight is nonnegative. -/
theorem riskPattern_weights_nonneg :
    ∀ wp ∈ riskPatternList, (0:ℚ) ≤ wp.1 := by
  intro wp hwp
  simp only [riskPatternList, List.mem_cons, List.not_mem_nil, or_false] at hwp
  rcases hwp with h|h|h|h|h|h|h|h|h|h|h|h|h|h|h|h|h|h|h|h|h|h <;>
    rw [h] <;> norm_num

/-- The "responsabilidade ilimitada" entry of the risk-pattern catalog. -/
theorem respIlim_mem_riskPatternList :
    ((1 : ℚ), ("responsabilidade ilimitada".toList).map Atom.lit) ∈
      riskPatternList :=
  List.mem_cons_of_mem _ (List.mem_cons_self _ _)

/-- A contract whose lowercased text contains "responsabilidade ilimitada"
accumulates at least the full high-risk weight 1.0. -/
theorem contractRiskScore_ge_one (lower : List Char)
    (hcon : StrUtil.containsSub ("responsabilidade ilimitada".toList) lower = true) :
    1 ≤ contractRiskScore lower := by
  have hcount : 1 ≤ countMatches (("responsabilidade ilimitada".toList).map Atom.lit)
      lower :=
    countMatches_pos _ _ (by decide) hcon
  have hterm : (1:ℚ) ≤ 1 *
      (countMatches (("responsabilidade ilimitada".toList).map Atom.lit) lower : ℚ) := by
    rw [one_mul]
    exact_mod_cast hcount
  have hmem : (1:ℚ) *
      (countMatches (("responsabilidade ilimitada".toList).map Atom.lit) lower : ℚ) ∈
      riskPatternList.map (fun wp => wp.1 * (countMatches wp.2 lower : ℚ)) :=
    List.mem_map_of_mem _ respIlim_mem_riskPatternList
  have hnn : ∀ x ∈ riskPatternList.map
      (fun wp => wp.1 * (countMatches wp.2 lower : ℚ)), 0 ≤ x := by
    intro x hx
    rw [List.mem_map] at hx
    obtain ⟨wp, hwp, rfl⟩ := hx
    exact mul_nonneg (riskPattern_weights_nonneg wp hwp) (by positivity)
  have hsum := List.single_le_sum hnn _ hmem
  unfold contractRiskScore
  exact le_min (by linarith) (by norm_num)

end LegalTools

/-! ## C2 — iteration ceiling -/

namespace RegGraph

/-- The orchestrator's routing decision is never the terminal node: with at
least one analysis missing it names an agent, otherwise quality control or
document review. -/
theorem analyze_ne_stop (c : Ctx) : analyzeOrchestratorState c ≠ .stop := by
  cases h : requiredAnalyses.filter (fun k => !(c.present k)) with
  | nil =>
    simp [analyzeOrchestratorState, h]
    split_ifs <;> simp
  | cons m ms => simp [analyzeOrchestratorState, h]

end RegGraph

open RegGraph in
/-- C2: the orchestrator step first increments the iteration counter and
terminates the run with error "Maximum iterations reached" exactly when the
incremented counter exceeds the ceiling (otherwise it routes on, leaving
the error unset); consequently, for every task string and every family of
non-raising agent behaviors, a run with `max_iterations=1` ends with the
state error "Maximum iterations reached" and a result with
`success=false`. -/
theorem iteration_ceiling (beh : AgentBehavior)
    (hbeh : ∀ (a : AgentName) (s : GState), ∃ c, beh a s = .ok c) (task : String) :
    (∀ s : GState,
      (stepOrch s).2.iteration = s.iteration + 1 ∧
      (if s.maxIterations < s.iteration + 1 then
        stepOrch s = (.stop, { s with
                               iteration := s.iteration + 1,
                               error := some "Maximum iterations reached" })
       else (stepOrch s).1 ≠ .stop ∧
         (stepOrch s).2 = { s with iteration := s.iteration + 1 })) ∧
    (runState beh task 1 {}).error = some "Maximum iterations reached" ∧
    (run beh task 1 {}).success = false := by
  refine ⟨?_, ?_⟩
  · intro s
    constructor
    · by_cases h : s.maxIterations < s.iteration + 1 <;> simp [stepOrch, h]
    · by_cases h : s.maxIterations < s.iteration + 1 <;> simp [stepOrch, h]
      exact analyze_ne_stop _
  · obtain ⟨c1, hc1⟩ := hbeh .perplexity
      { task := task, iteration := 1, maxIterations := 1, ctx := {} }
    have hrun : runState beh task 1 {} =
        { task := task, iteration := 2, maxIterations := 1, ctx := c1,
          error := some "Maximum iterations reached",
          confidence := calcAgentConfidence .perplexity c1 } := by
      simp [runState, initState, exec, step, stepOrch, stepAgent, hc1,
        analyzeOrchestratorState, requiredAnalyses, Ctx.present, pyMinBy,
        priorityOf, agentFor]
    rw [run, hrun, mkRunResult]
    simp [truthyOutput, hrun]

open RegGraph in
/-- C2 witnessed with the identity agent behavior. -/
theorem iteration_ceiling_witness :
    (runState (fun _ s => .ok s.ctx) "tarefa" 1 {}).error =
      some "Maximum iterations reached" ∧
    (run (fun _ s => .ok s.ctx) "tarefa" 1 {}).success = false :=
  ⟨(iteration_ceiling (fun _ s => .ok s.ctx) (fun _ s => ⟨s.ctx, rfl⟩) "tarefa").2.1,
   (iteration_ceiling (fun _ s => .ok s.ctx) (fun _ s => ⟨s.ctx, rfl⟩) "tarefa").2.2⟩

/-! ## C6 — failed runs preserve partial context -/

namespace RegGraph

/-- A behavior family in which the first four agents each write their
analysis into the shared context and the risk-assessment agent raises. -/
def pipelineBeh (pq : ℚ) (rc cc lc msg : String) : AgentBehavior :=
  fun a s =>
    match a with
    | .perplexity => .ok { s.ctx with perplexityResearch := some pq }
    | .research => .ok { s.ctx with researchFindings := rc }
    | .compliance => .ok { s.ctx with complianceAnalysis := cc }
    | .legal => .ok { s.ctx with legalAnalysis := lc }
    | .risk => .error msg
    | .docReview => .ok s.ctx

end RegGraph

open RegGraph in
/-- C6: when an agent's `process` raises, the wrapper ends the run setting
only the error (and current agent) — the context accumulated so far is
preserved in the state; every state with an error yields a result with
`success=false`; in particular a run in which the risk-assessment agent
raises after the Perplexity, research, compliance and legal agents have
written their analyses still returns those analyses in the result
context. -/
theorem failed_run_preserves_context :
    (∀ (beh : AgentBehavior) (a : AgentName) (s : GState) (msg : String),
        beh a s = .error msg →
        stepAgent beh a s = (.stop,
          { s with error := some ("Agent " ++ configName a ++ " failed: " ++ msg) })) ∧
    (∀ s : GState, s.error.isSome = true → (mkRunResult s).success = false) ∧
    (∀ (pq : ℚ) (rc cc lc msg task : String), rc ≠ "" → cc ≠ "" → lc ≠ "" →
        (runState (pipelineBeh pq rc cc lc msg) task 15 {}).error =
          some ("Agent risk_assessment_agent failed: " ++ msg) ∧
        (run (pipelineBeh pq rc cc lc msg) task 15 {}).success = false ∧
        (run (pipelineBeh pq rc cc lc msg) task 15 {}).context.complianceAnalysis = cc ∧
        (run (pipelineBeh pq rc cc lc msg) task 15 {}).context.legalAnalysis = lc) := by
  refine ⟨?_, ?_, ?_⟩
  · intro beh a s msg h
    simp [stepAgent, h]
  · intro s h
    cases he : s.error with
    | none => rw [he] at h; simp at h
    | some e => simp [mkRunResult, he]
  · intro pq rc cc lc msg task hrc hcc hlc
    have hrc' : (rc != "") = true := by simp [hrc]
    have hcc' : (cc != "") = true := by simp [hcc]
    have hlc' : (lc != "") = true := by simp [hlc]
    have hrun : runState (pipelineBeh pq rc cc lc msg) task 15 {} =
        { task := task, iteration := 5, maxIterations := 15,
          ctx := { perplexityResearch := some pq, researchFindings := rc,
                   complianceAnalysis := cc, legalAnalysis := lc },
          error := some ("Agent risk_assessment_agent failed: " ++ msg),
          confidence := calcAgentConfidence .legal
            { perplexityResearch := some pq, researchFindings := rc,
              complianceAnalysis := cc, legalAnalysis := lc } } := by
      simp [runState, initState, exec, step, stepOrch, stepAgent, pipelineBeh,
        analyzeOrchestratorState, requiredAnalyses, Ctx.present, pyMinBy,
        priorityOf, agentFor, configName, hrc', hcc', hlc']
    rw [run, hrun, mkRunResult]
    simp [truthyOutput]

open RegGraph in
/-- C6 witnessed at a concrete failing pipeline. -/
theorem failed_run_preserves_context_witness :
    (runState (pipelineBeh 1 "pesquisa" "conformidade" "juridico" "falha")
        "tarefa" 15 {}).error =
      some ("Agent risk_assessment_agent failed: " ++ "falha") ∧
    (run (pipelineBeh 1 "pesquisa" "conformidade" "juridico" "falha")
        "tarefa" 15 {}).success = false ∧
    (run (pipelineBeh 1 "pesquisa" "conformidade" "juridico" "falha")
        "tarefa" 15 {}).context.complianceAnalysis = "conformidade" ∧
    (run (pipelineBeh 1 "pesquisa" "conformidade" "juridico" "falha")
        "tarefa" 15 {}).context.legalAnalysis = "juridico" :=
  failed_run_preserves_context.2.2 1 "pesquisa" "conformidade" "juridico"
    "falha" "tarefa" (by decide) (by decide) (by decide)

/-! ## C1 — orchestrator priority routing -/

open RegGraph in
/-- C1: whenever at least one of the five required analysis keys is absent
or empty, `_analyze_orchestrator_state` routes to the agent of the
highest-priority missing key under the fixed priority perplexity_research
(1) > research_findings (2) > compliance_analysis (3) > legal_analysis (4)
> risk_assessment (5) — for every combination of which analyses are already
present. -/
theorem orchestrator_priority_routing (c : Ctx)
    (h : c.present .perplexityResearch = false ∨
         c.present .researchFindings = false ∨
         c.present .complianceAnalysis = false ∨
         c.present .legalAnalysis = false ∨
         c.present .riskAssessment = false) :
    analyzeOrchestratorState c = .agent
      (if c.present .perplexityResearch = false then .perplexity
       else if c.present .researchFindings = false then .research
       else if c.present .complianceAnalysis = false then .compliance
       else if c.present .legalAnalysis = false then .legal
       else .risk) := by
  cases hp : c.present .perplexityResearch <;>
  cases hc : c.present .complianceAnalysis <;>
  cases hl : c.present .legalAnalysis <;>
  cases hr : c.present .riskAssessment <;>
  cases hf : c.present .researchFindings <;>
    simp_all [analyzeOrchestratorState, requiredAnalyses, List.filter_cons,
      pyMinBy, priorityOf, agentFor]

open RegGraph in
/-- C1 witnessed: on an empty context the orchestrator routes to
`perplexity_agent`; with only `perplexity_research` present it routes to
`research_agent`. -/
theorem orchestrator_priority_routing_witness :
    analyzeOrchestratorState {} = .agent .perplexity ∧
    analyzeOrchestratorState { perplexityResearch := some 1 } = .agent .research := by
  constructor
  · have h := orchestrator_priority_routing {} (Or.inl rfl)
    simpa [Ctx.present] using h
  · have h := orchestrator_priority_routing { perplexityResearch := some 1 }
      (Or.inr (Or.inl rfl))
    simpa [Ctx.present] using h

/-! ## C3 — the quality-control gate -/

namespace RegGraph

/-- A context holding all five required analyses and 6 accumulated
Perplexity citations. -/
def ctxPass : Ctx :=
  { perplexityResearch := some (4/5)
    complianceAnalysis := "analise de conformidade regulatoria"
    legalAnalysis := "analise juridica"
    riskAssessment := "avaliacao de riscos"
    researchFindings := "resultados de pesquisa"
    perplexityCitations := 6 }

/-- A state about to enter quality control with confidence 0.65. -/
def sPass : GState :=
  { task := "tarefa", iteration := 6, maxIterations := 15, ctx := ctxPass,
    confidence := 13/20 }

def sNoPerp : GState := { sPass with ctx := { ctxPass with perplexityResearch := none } }
def sNoComp : GState := { sPass with ctx := { ctxPass with complianceAnalysis := "" } }
def sNoLegal : GState := { sPass with ctx := { ctxPass with legalAnalysis := "" } }
def sNoRisk : GState := { sPass with ctx := { ctxPass with riskAssessment := "" } }
def sNoResearch : GState := { sPass with ctx := { ctxPass with researchFindings := "" } }
def sLowConf : GState := { sPass with confidence := 1/2 }
def sFewCites : GState := { sPass with ctx := { ctxPass with perplexityCitations := 3 } }

end RegGraph

open RegGraph in
/-- C3: the quality-control node evaluates exactly the seven booleans of
`qualityChecksOf` and routes to finalization marking `quality_checked=true`
iff all seven hold, otherwise recording the failing checks as
`quality_issues` and routing back to the orchestrator; in particular the
0.65-confidence/6-citation context with all five analyses passes all seven
checks, while removing any one analysis key, dropping the confidence to
0.5, or dropping the citations to 3 fails at least one check and routes
back to the orchestrator. -/
theorem quality_control_gate :
    (∀ s : GState,
      (stepQuality s).qualityChecks = qualityChecksOf s ∧
      (((stepQuality s).target = .finalize ∧ (stepQuality s).ctxQualityChecked = true) ↔
        (qualityChecksOf s).allPassed = true) ∧
      (((stepQuality s).target = .orchestrator ∧
          (stepQuality s).qualityIssues = some (qualityChecksOf s)) ↔
        (qualityChecksOf s).allPassed = false)) ∧
    ((qualityChecksOf sPass).allPassed = true ∧ (stepQuality sPass).target = .finalize ∧
      (stepQuality sPass).ctxQualityChecked = true) ∧
    ((qualityChecksOf sNoPerp).allPassed = false ∧
      (stepQuality sNoPerp).target = .orchestrator) ∧
    ((qualityChecksOf sNoComp).allPassed = false ∧
      (stepQuality sNoComp).target = .orchestrator) ∧
    ((qualityChecksOf sNoLegal).allPassed = false ∧
      (stepQuality sNoLegal).target = .orchestrator) ∧
    ((qualityChecksOf sNoRisk).allPassed = false ∧
      (stepQuality sNoRisk).target = .orchestrator) ∧
    ((qualityChecksOf sNoResearch).allPassed = false ∧
      (stepQuality sNoResearch).target = .orchestrator) ∧
    ((qualityChecksOf sLowConf).allPassed = false ∧
      (stepQuality sLowConf).target = .orchestrator) ∧
    ((qualityChecksOf sFewCites).allPassed = false ∧
      (stepQuality sFewCites).target = .orchestrator) := by
  have hconfPass : decide ((3:ℚ)/5 < 13/20) = true := by
    rw [decide_eq_true_eq]; norm_num
  have hconfLow : decide ((3:ℚ)/5 < 1/2) = false := by
    rw [decide_eq_false_iff_not]; norm_num
  constructor
  · intro s
    by_cases h : (qualityChecksOf s).allPassed <;>
      simp [stepQuality, h]
  · refine ⟨?_, ?_, ?_, ?_, ?_, ?_, ?_, ?_⟩ <;>
      simp [stepQuality, qualityChecksOf, QChecks.allPassed, sPass, sNoPerp,
        sNoComp, sNoLegal, sNoRisk, sNoResearch, sLowConf, sFewCites, ctxPass,
        hconfPass, hconfLow]
    exact ⟨by norm_num, by rw [if_neg (by norm_num : ¬((3:ℚ)/5 < 2⁻¹))]⟩

/-! ## C7 — the two memory backends -/

/-- A sample entry (default relevance 1). -/
def entA : RegMemory.MEntry :=
  { id := "m1", mtype := .shortTerm, content := "nota de registro",
    agentId := "agent_a", timestamp := 100 }

/-- The sample entry with relevance 0.5. -/
def entLowRel : RegMemory.MEntry := { entA with relevanceScore := 1/2 }

/-- A query with a minimum-relevance constraint of 0.9 and no other filter. -/
def qMinRel : RegMemory.MQuery := { query := "", minRelevance := 9/10 }

/-- A query filtering on two agent ids and nothing else. -/
def qTwoAgents : RegMemory.MQuery :=
  { query := "", agentIds := some ["agent_a", "agent_b"] }

/-- C7 counterexample: the two stores do NOT behave identically on the
store/retrieve/search/update/delete contract.  Updating a non-existent id
returns `True` on the embedded store (`INSERT OR REPLACE` + unconditional
`return True`) but `False` on the networked store; an entry below the
query's minimum relevance is admitted by the embedded store's search
(which never reads `min_relevance`) but filtered out by the networked
store; and a two-agent filter is an `IN` (OR) on the embedded store but a
set intersection (AND) on the networked store. -/
theorem store_backends_diverge :
    (RegMemory.sqliteUpdate [] entA).2 = true ∧
    (RegMemory.redisUpdate [] entA).2 = false ∧
    RegMemory.sqliteRowMatch qMinRel entLowRel = true ∧
    RegMemory.redisRowMatch qMinRel entLowRel = false ∧
    RegMemory.sqliteRowMatch qTwoAgents entA = true ∧
    RegMemory.redisRowMatch qTwoAgents entA = false := by
  refine ⟨rfl, rfl, rfl, ?_, ?_, ?_⟩
  · simp [RegMemory.redisRowMatch, RegMemory.redisMatchesQuery,
      RegMemory.redisCandidate, qMinRel, entLowRel, entA]
    norm_num
  · simp [RegMemory.sqliteRowMatch, qTwoAgents, entA]
  · simp [RegMemory.redisRowMatch, RegMemory.redisMatchesQuery,
      RegMemory.redisCandidate, qTwoAgents, entA]

/-- C7 (amended): the two backends agree on `retrieve`, and on `update` of
an EXISTING id; they diverge on `update` of a non-existent id (the embedded
store inserts the entry and reports success, the networked store reports
failure and leaves the store unchanged) and on search filtering (the
embedded store ignores the minimum-relevance and tag filters and treats
multi-valued agent/type filters as OR where the networked store intersects
them); restricted to queries with no tag filter, at most one agent id, at
most one memory type, and a minimum relevance not above the entry's
relevance score, both stores admit exactly the same rows. -/
theorem store_backends_amended :
    (∀ (db : RegMemory.StoreState) (memoryId : String),
        RegMemory.sqliteRetrieve db memoryId = RegMemory.redisRetrieve db memoryId) ∧
    (∀ (db : RegMemory.StoreState) (e : RegMemory.MEntry),
        db.any (fun x => x.id = e.id) = true →
        RegMemory.redisUpdate db e = RegMemory.sqliteUpdate db e) ∧
    (∀ (db : RegMemory.StoreState) (e : RegMemory.MEntry),
        db.any (fun x => x.id = e.id) = false →
        RegMemory.sqliteUpdate db e = (RegMemory.storeOp e db, true) ∧
        RegMemory.redisUpdate db e = (db, false)) ∧
    (∀ (q : RegMemory.MQuery) (e : RegMemory.MEntry),
        q.tags.getD [] = [] →
        (q.agentIds.getD []).length ≤ 1 →
        (q.memoryTypes.getD []).length ≤ 1 →
        q.minRelevance ≤ e.relevanceScore →
        RegMemory.sqliteRowMatch q e = RegMemory.redisRowMatch q e) := by
  refine ⟨fun db memoryId => rfl, ?_, ?_, ?_⟩
  · intro db e h
    simp [RegMemory.redisUpdate, RegMemory.sqliteUpdate, h]
  · intro db e h
    simp [RegMemory.redisUpdate, RegMemory.sqliteUpdate, h]
  · rintro ⟨qq, mts, ags, tid, tags, sd, ed, lim, minRel⟩ e htags hags hmts hrel
    simp only [Option.getD] at htags hags hmts
    rcases tags with _ | ⟨_ | ⟨t0, ts⟩⟩ <;>
    rcases ags with _ | ⟨_ | ⟨a0, ags2⟩⟩ <;>
    rcases mts with _ | ⟨_ | ⟨t1, mts2⟩⟩ <;>
    rcases tid with _ | t <;>
      simp_all [RegMemory.sqliteRowMatch, RegMemory.redisRowMatch,
        RegMemory.redisCandidate, RegMemory.redisMatchesQuery,
        decide_eq_true hrel, Bool.and_assoc]

/-- C7 amended, witnessed: a plain free-text query admits the sample entry
identically on both stores, and updating an existing id succeeds
identically on both. -/
theorem store_backends_amended_witness :
    RegMemory.sqliteRowMatch { query := "registro" } entA =
      RegMemory.redisRowMatch { query := "registro" } entA ∧
    RegMemory.redisUpdate [entA] entA = RegMemory.sqliteUpdate [entA] entA :=
  ⟨store_backends_amended.2.2.2 { query := "registro" } entA rfl
      (by simp) (by simp) (by simp [entA]),
   store_backends_amended.2.1 [entA] entA (by simp [entA])⟩

/-! ## C8 / C10 — contract analysis -/

open LegalTools in
/-- C8: every contract text of at least 100 characters whose text contains
the phrase "responsabilidade ilimitada" and matches no data-protection
keyword gets a risk score of at least 1.0 (the high-risk pattern weight),
`lgpd` among the missing clauses and the corresponding LGPD compliance gap;
every text shorter than 100 characters is rejected with the too-short
message without any scoring. -/
theorem contract_high_risk_lgpd_gap :
    (∀ text : List Char,
      StrUtil.containsSub ("responsabilidade ilimitada".toList)
        (text.map Char.toLower) = true →
      lgpdKeywords.any (fun kw => rsearch kw (text.map Char.toLower)) = false →
      100 ≤ text.length →
      contractAnalysisExecute text = .ok (analyzeContractText text) ∧
      1 ≤ (analyzeContractText text).riskScore ∧
      "lgpd" ∈ (analyzeContractText text).missingClauses ∧
      gapLgpd ∈ (analyzeContractText text).complianceGaps) ∧
    (∀ text : List Char, text.length < 100 →
      contractAnalysisExecute text = .error tooShortMsg) := by
  constructor
  · intro text h1 h2 h3
    have hmiss : "lgpd" ∈ missingClausesOf (text.map Char.toLower) := by
      simp [missingClausesOf, essentialClauses, h2]
    refine ⟨?_, ?_, hmiss, ?_⟩
    · unfold contractAnalysisExecute
      rw [if_neg (by omega)]
    · exact contractRiskScore_ge_one _ h1
    · show gapLgpd ∈ complianceGapsOf (missingClausesOf (text.map Char.toLower))
      unfold complianceGapsOf
      rw [if_pos hmiss]
      simp
  · intro text h
    unfold contractAnalysisExecute
    rw [if_pos h]

namespace LegalTools

/-- A 134-character contract fragment whose only liability language is the
red-flag phrase "responsabilidade ilimitada" and which contains no
data-protection keyword. -/
def wText : List Char :=
  ("o contratante assume responsabilidade ilimitada por quaisquer eventos " ++
   "decorrentes deste instrumento contratual firmado entre as partes").toList

end LegalTools

set_option maxRecDepth 100000 in
open LegalTools in
/-- C8 witnessed at `wText` and at a short text. -/
theorem contract_high_risk_lgpd_gap_witness :
    (contractAnalysisExecute wText = .ok (analyzeContractText wText) ∧
      1 ≤ (analyzeContractText wText).riskScore ∧
      "lgpd" ∈ (analyzeContractText wText).missingClauses ∧
      gapLgpd ∈ (analyzeContractText wText).complianceGaps) ∧
    contractAnalysisExecute ("contrato curto".toList) = .error tooShortMsg :=
  ⟨contract_high_risk_lgpd_gap.1 wText (by decide) (by decide) (by decide),
   contract_high_risk_lgpd_gap.2 ("contrato curto".toList) (by decide)⟩

open LegalTools in
/-- C10: essential-clause detection is pure keyword containment — for every
contract text of at least 100 characters whose lowercased text contains the
substring "responsabilidade" anywhere (in particular only inside the
red-flag phrase "responsabilidade ilimitada"), the analysis never reports
the liability-limitation clause "responsabilidade" as missing. -/
theorem liability_clause_never_missing :
    ∀ text : List Char,
      100 ≤ text.length →
      StrUtil.containsSub ("responsabilidade".toList) (text.map Char.toLower) = true →
      contractAnalysisExecute text = .ok (analyzeContractText text) ∧
      "responsabilidade" ∉ (analyzeContractText text).missingClauses := by
  intro text hlen hcon
  have hs : rsearch (("responsabilidade".toList).map Atom.lit)
      (text.map Char.toLower) = true :=
    rsearch_lits_of_containsSub _ _ hcon
  constructor
  · unfold contractAnalysisExecute
    rw [if_neg (by omega)]
  · intro hmem
    have hmem' : "responsabilidade" ∈ missingClausesOf (text.map Char.toLower) := hmem
    unfold missingClausesOf at hmem'
    rw [List.mem_map] at hmem'
    obtain ⟨cl, hclmem, hfst⟩ := hmem'
    rw [List.mem_filter] at hclmem
    obtain ⟨hin, hcond⟩ := hclmem
    simp only [essentialClauses, List.mem_cons, List.not_mem_nil, or_false] at hin
    rcases hin with h|h|h|h <;> subst h
    · simp at hfst
    · simp at hfst
    · simp [lits] at hs hcond
      simp [hs] at hcond
    · simp at hfst

set_option maxRecDepth 100000 in
open LegalTools in
/-- C10 witnessed at `wText`, whose only occurrence of "responsabilidade"
sits inside the red-flag phrase. -/
theorem liability_clause_never_missing_witness :
    contractAnalysisExecute wText = .ok (analyzeContractText wText) ∧
    "responsabilidade" ∉ (analyzeContractText wText).missingClauses :=
  liability_clause_never_missing wText (by decide) (by decide)

/-! ## C4 — memory TTL -/

/-- C4: the claim states that `remember` with `ttl=0` stores an entry that
never expires (`expires_at` absent).  The code's own intent agrees
(`consolidate_memories` passes `ttl=0` with the comment "No expiration",
and the expiry expression reads `... if ttl > 0 else None`), but the line
`ttl = ttl or self.default_ttl` treats 0 as falsy and replaces it with the
default of 3600 seconds, so the entry built for `ttl=0` carries
`expires_at = creation + 3600` instead of no expiry; a positive ttl
behaves as specified. -/
theorem remember_ttl_zero_expires :
    RegMemory.rememberExpiresAt 0 (some 0) = some 3600 ∧
    RegMemory.rememberExpiresAt 0 (some 0) ≠ none ∧
    RegMemory.rememberExpiresAt 0 (some 60) = some 60 ∧
    RegMemory.rememberExpiresAt 0 none = some 3600 := by
  refine ⟨rfl, ?_, ?_, rfl⟩
  · intro h
    simp [RegMemory.rememberExpiresAt, RegMemory.rememberTtl] at h
  · simp [RegMemory.rememberExpiresAt, RegMemory.rememberTtl]

/-! ## C5 — Perplexity confidence -/

/-- C5 counterexample: the claim says the confidence of an empty citation
list is exactly the base 0.5, but `_calculate_confidence` returns 0.0 on an
empty list. -/
theorem calcConfidence_empty_is_zero :
    PerplexityTool.calcConfidence [] = 0 ∧
    PerplexityTool.calcConfidence [] ≠ 1/2 := by
  constructor
  · rfl
  · rw [show PerplexityTool.calcConfidence [] = 0 from rfl]
    norm_num

/-- C5 (amended): for a NON-empty citation list the confidence equals base
0.5 plus 0.05 per official citation capped at +0.3, plus 0.03 per
regulatory-body citation capped at +0.15, plus 0.01 per recent citation
capped at +0.05, clamped to [0,1]; an empty citation list yields exactly
0.0 (not 0.5); the result is always within [0,1]. -/
theorem calcConfidence_amended (cs : List PerplexityTool.Citation) :
    PerplexityTool.calcConfidence cs =
      (if cs.isEmpty then 0
       else PerplexityTool.specConfidence
         (cs.filter (fun c => c.sourceType = "official")).length
         (cs.filter (fun c => c.regulatoryBody.isSome)).length
         (cs.filter (fun c => PerplexityTool.isRecent c.publishedDaysAgo)).length) ∧
    0 ≤ PerplexityTool.calcConfidence cs ∧
    PerplexityTool.calcConfidence cs ≤ 1 := by
  cases cs with
  | nil => exact ⟨rfl, le_refl 0, zero_le_one⟩
  | cons c cs' =>
    refine ⟨rfl, ?_, ?_⟩
    · exact le_min zero_le_one (le_max_left 0 _)
    · exact min_le_left 1 _

/-! ## C9 — risk score formulas and classification -/

/-- C9 counterexample: the claim says the risk score always lies in [0,1],
but the `anvisa_gestao_risco` framework multiplies by 1.2, so
probability 1 and impact 1 give a score of 1.2. -/
theorem calcRiskScore_anvisa_exceeds_one :
    RiskTools.calcRiskScore 1 1 "anvisa_gestao_risco" = 6/5 ∧
    ¬ RiskTools.calcRiskScore 1 1 "anvisa_gestao_risco" ≤ 1 := by
  constructor
  · simp [RiskTools.calcRiskScore]
  · simp [RiskTools.calcRiskScore]
    norm_num

/-- Clamp of an input to [0,1] (`max(0, min(1, x))`). -/
theorem clamp01_mem (x : ℚ) : 0 ≤ max 0 (min 1 x) ∧ max 0 (min 1 x) ≤ 1 :=
  ⟨le_max_left 0 _, max_le zero_le_one (min_le_left 1 x)⟩

/-- C9 (amended): the risk score equals probability × impact
(multiplicative, also for any unrecognized framework selector),
0.4·probability + 0.6·impact (weighted), or probability × impact × 1.2
(pharmaceutical), computed on inputs clamped to [0,1]; the score lies in
[0,1] for every framework except `anvisa_gestao_risco`, whose score can
reach 1.2 and always lies in [0, 1.2]; the classification bands are
≥0.8 critical, ≥0.6 high, ≥0.4 medium, ≥0.2 low, else very-low. -/
theorem calcRiskScore_amended :
    (∀ p i : ℚ, RiskTools.calcRiskScore p i "iso_31000" =
      max 0 (min 1 p) * max 0 (min 1 i)) ∧
    (∀ p i : ℚ, RiskTools.calcRiskScore p i "coso_erm" =
      max 0 (min 1 p) * (2/5) + max 0 (min 1 i) * (3/5)) ∧
    (∀ p i : ℚ, RiskTools.calcRiskScore p i "anvisa_gestao_risco" =
      max 0 (min 1 p) * max 0 (min 1 i) * (6/5)) ∧
    (∀ (p i : ℚ) (fw : String), fw ≠ "iso_31000" → fw ≠ "coso_erm" →
      fw ≠ "anvisa_gestao_risco" →
      RiskTools.calcRiskScore p i fw = max 0 (min 1 p) * max 0 (min 1 i)) ∧
    (∀ (p i : ℚ) (fw : String), 0 ≤ RiskTools.calcRiskScore p i fw ∧
      RiskTools.calcRiskScore p i fw ≤ 6/5) ∧
    (∀ (p i : ℚ) (fw : String), fw ≠ "anvisa_gestao_risco" →
      RiskTools.calcRiskScore p i fw ≤ 1) ∧
    (∀ s : ℚ,
      (RiskTools.classifyRiskLevel s = .critical ↔ 4/5 ≤ s) ∧
      (RiskTools.classifyRiskLevel s = .high ↔ 3/5 ≤ s ∧ s < 4/5) ∧
      (RiskTools.classifyRiskLevel s = .medium ↔ 2/5 ≤ s ∧ s < 3/5) ∧
      (RiskTools.classifyRiskLevel s = .low ↔ 1/5 ≤ s ∧ s < 2/5) ∧
      (RiskTools.classifyRiskLevel s = .veryLow ↔ s < 1/5)) := by
  have hprod : ∀ p i : ℚ, 0 ≤ max 0 (min 1 p) * max 0 (min 1 i) ∧
      max 0 (min 1 p) * max 0 (min 1 i) ≤ 1 := by
    intro p i
    obtain ⟨hp0, hp1⟩ := clamp01_mem p
    obtain ⟨hi0, hi1⟩ := clamp01_mem i
    exact ⟨mul_nonneg hp0 hi0, mul_le_one₀ hp1 hi0 hi1⟩
  refine ⟨?_, ?_, ?_, ?_, ?_, ?_, ?_⟩
  · intro p i; simp [RiskTools.calcRiskScore]
  · intro p i; simp [RiskTools.calcRiskScore]
  · intro p i; simp [RiskTools.calcRiskScore]
  · intro p i fw h1 h2 h3; simp [RiskTools.calcRiskScore, h1, h2, h3]
  · intro p i fw
    obtain ⟨hp0, hp1⟩ := clamp01_mem p
    obtain ⟨hi0, hi1⟩ := clamp01_mem i
    obtain ⟨hm0, hm1⟩ := hprod p i
    unfold RiskTools.calcRiskScore
    split_ifs <;> constructor <;> first | positivity | linarith
  · intro p i fw h3
    obtain ⟨hp0, hp1⟩ := clamp01_mem p
    obtain ⟨hi0, hi1⟩ := clamp01_mem i
    obtain ⟨hm0, hm1⟩ := hprod p i
    unfold RiskTools.calcRiskScore
    split_ifs <;> first | linarith | simp_all
  · intro s
    by_cases h1 : (4/5 : ℚ) ≤ s
    · simp only [RiskTools.classifyRiskLevel, if_pos h1]
      refine ⟨?_, ?_, ?_, ?_, ?_⟩ <;> simp [h1] <;> intros <;> linarith
    · have h1' := lt_of_not_le h1
      by_cases h2 : (3/5 : ℚ) ≤ s
      · simp only [RiskTools.classifyRiskLevel, if_neg h1, if_pos h2]
        refine ⟨?_, ?_, ?_, ?_, ?_⟩ <;> simp [h1, h2, h1'] <;> intros <;> linarith
      · have h2' := lt_of_not_le h2
        by_cases h3 : (2/5 : ℚ) ≤ s
        · simp only [RiskTools.classifyRiskLevel, if_neg h1, if_neg h2, if_pos h3]
          refine ⟨?_, ?_, ?_, ?_, ?_⟩ <;> simp [h1, h2, h3, h2'] <;> intros <;> linarith
        · have h3' := lt_of_not_le h3
          by_cases h4 : (1/5 : ℚ) ≤ s
          · simp only [RiskTools.classifyRiskLevel, if_neg h1, if_neg h2, if_neg h3,
              if_pos h4]
            refine ⟨?_, ?_, ?_, ?_, ?_⟩ <;> simp [h1, h2, h3, h4, h3'] <;>
              intros <;> linarith
          · have h4' := lt_of_not_le h4
            simp only [RiskTools.classifyRiskLevel, if_neg h1, if_neg h2, if_neg h3,
              if_neg h4]
            refine ⟨?_, ?_, ?_, ?_, ?_⟩ <;> simp [h1, h2, h3, h4, h4'] <;>
              intros <;> linarith

/-- C9 amended, witnessed at an unrecognized framework selector. -/
theorem calcRiskScore_amended_witness :
    RiskTools.calcRiskScore (3/10) (9/10) "matriz_propria" =
      max 0 (min 1 ((3:ℚ)/10)) * max 0 (min 1 ((9:ℚ)/10)) ∧
    RiskTools.calcRiskScore (3/10) (9/10) "matriz_propria" ≤ 1 :=
  ⟨calcRiskScore_amended.2.2.2.1 (3/10) (9/10) "matriz_propria"
      (by decide) (by decide) (by decide),
   calcRiskScore_amended.2.2.2.2.2.1 (3/10) (9/10) "matriz_propria"
      (by decide)⟩
